import Mathlib

/-!
Shallow embedding of the `choochoo` GitHub webhook server
(package `github.com/deedubs/choochoo`), covering the ingestion pipeline:
signature verification (`internal/handlers/webhook.go`, `validateSignature`),
payload parsing (Go `encoding/json` unmarshalling into
`internal/webhook/types.go`'s `GitHubEvent`), event classification
(`internal/webhook/types.go`, `IsSupportedEvent`), the persistence-parameter
construction (`storeWebhookEvent`) and the HTTP handler (`HandleWebhook`).

Go byte slices are modelled as `List Nat` with every element `< 256`;
Go strings are Lean `String`s, converted to bytes by explicit UTF-8
encoding where the code converts (`[]byte(s)`).
-/

namespace Choochoo

/-! ### Bytes and hex (Go `encoding/hex`) -/

/-- UTF-8 encoding of a single character, as in Go's string-to-`[]byte`
conversion. -/
def utf8EncodeChar (c : Char) : List Nat :=
  let n := c.toNat
  if n < 0x80 then [n]
  else if n < 0x800 then
    [0xC0 ||| (n >>> 6), 0x80 ||| (n &&& 0x3F)]
  else if n < 0x10000 then
    [0xE0 ||| (n >>> 12), 0x80 ||| ((n >>> 6) &&& 0x3F), 0x80 ||| (n &&& 0x3F)]
  else
    [0xF0 ||| (n >>> 18), 0x80 ||| ((n >>> 12) &&& 0x3F),
     0x80 ||| ((n >>> 6) &&& 0x3F), 0x80 ||| (n &&& 0x3F)]

/-- UTF-8 bytes of a Go string (`[]byte(s)`). -/
def utf8Encode (s : String) : List Nat :=
  s.data.flatMap utf8EncodeChar

/-- Lowercase hex digit for a nibble, as produced by Go's
`hex.EncodeToString`. -/
def hexDigitChar (n : Nat) : Char :=
  if n < 10 then Char.ofNat (48 + n) else Char.ofNat (87 + n)

/-- Go `hex.EncodeToString`: two lowercase hex digits per byte. -/
def hexEncodeChars (bs : List Nat) : List Char :=
  bs.flatMap (fun b => [hexDigitChar (b / 16), hexDigitChar (b % 16)])

/-- Go `encoding/hex.fromHexChar`: accepts `0-9`, `a-f` and also `A-F`. -/
def fromHexChar (c : Char) : Option Nat :=
  if '0' ≤ c ∧ c ≤ '9' then some (c.toNat - 48)
  else if 'a' ≤ c ∧ c ≤ 'f' then some (c.toNat - 87)
  else if 'A' ≤ c ∧ c ≤ 'F' then some (c.toNat - 55)
  else none

/-- Go `hex.DecodeString` (as used with an error check: any invalid char or
odd length yields failure). -/
def hexDecode : List Char → Option (List Nat)
  | [] => some []
  | [_] => none
  | c1 :: c2 :: rest =>
    match fromHexChar c1, fromHexChar c2, hexDecode rest with
    | some hi, some lo, some bs => some ((hi * 16 + lo) :: bs)
    | _, _, _ => none

/-! ### SHA-256 (Go `crypto/sha256`), on byte lists -/

/-- `2^32`, the word modulus. -/
def w32 : Nat := 4294967296

/-- 32-bit right rotation (inputs are kept `< 2^32`). -/
def rotr32 (n x : Nat) : Nat := ((x >>> n) ||| (x <<< (32 - n))) % w32

def shaCh (e f g : Nat) : Nat := (e &&& f) ^^^ ((e ^^^ 0xFFFFFFFF) &&& g)

def shaMaj (a b c : Nat) : Nat := (a &&& b) ^^^ (a &&& c) ^^^ (b &&& c)

def bigSigma0 (x : Nat) : Nat := rotr32 2 x ^^^ rotr32 13 x ^^^ rotr32 22 x

def bigSigma1 (x : Nat) : Nat := rotr32 6 x ^^^ rotr32 11 x ^^^ rotr32 25 x

def smallSigma0 (x : Nat) : Nat := rotr32 7 x ^^^ rotr32 18 x ^^^ (x >>> 3)

def smallSigma1 (x : Nat) : Nat := rotr32 17 x ^^^ rotr32 19 x ^^^ (x >>> 10)

/-- The SHA-256 round constants (FIPS 180-4), written in decimal. -/
def sha256K : List Nat :=
  [1116352408, 1899447441, 3049323471, 3921009573, 961987163,
   1508970993, 2453635748, 2870763221, 3624381080, 310598401,
   607225278, 1426881987, 1925078388, 2162078206, 2614888103,
   3248222580, 3835390401, 4022224774, 264347078, 604807628,
   770255983, 1249150122, 1555081692, 1996064986, 2554220882,
   2821834349, 2952996808, 3210313671, 3336571891, 3584528711,
   113926993, 338241895, 666307205, 773529912, 1294757372,
   1396182291, 1695183700, 1986661051, 2177026350, 2456956037,
   2730485921, 2820302411, 3259730800, 3345764771, 3516065817,
   3600352804, 4094571909, 275423344, 430227734, 506948616,
   659060556, 883997877, 958139571, 1322822218, 1537002063,
   1747873779, 1955562222, 2024104815, 2227730452, 2361852424,
   2428436474, 2756734187, 3204031479, 3329325298]

/-- The SHA-256 initial hash value (FIPS 180-4), written in decimal. -/
def sha256H0 : List Nat :=
  [1779033703, 3144134277, 1013904242, 2773480762,
   1359893119, 2600822924, 528734635, 1541459225]

/-- Big-endian 32-bit words from bytes (length a multiple of 4). -/
def toWordsBE : List Nat → List Nat
  | b0 :: b1 :: b2 :: b3 :: rest =>
    ((b0 <<< 24) ||| (b1 <<< 16) ||| (b2 <<< 8) ||| b3) :: toWordsBE rest
  | _ => []

/-- Big-endian bytes of a 32-bit word. -/
def wordBytes (w : Nat) : List Nat :=
  [(w >>> 24) % 256, (w >>> 16) % 256, (w >>> 8) % 256, w % 256]

/-- SHA-256 padding: `0x80`, zeros to 56 mod 64, then the 64-bit big-endian
bit length. -/
def sha256Pad (msg : List Nat) : List Nat :=
  let len := msg.length
  let zeros := (119 - len % 64) % 64
  let bitLen := len * 8
  msg ++ [0x80] ++ List.replicate zeros 0 ++
    [(bitLen >>> 56) % 256, (bitLen >>> 48) % 256, (bitLen >>> 40) % 256,
     (bitLen >>> 32) % 256, (bitLen >>> 24) % 256, (bitLen >>> 16) % 256,
     (bitLen >>> 8) % 256, bitLen % 256]

/-- Extend a 16-word block schedule by `n` further words. -/
def extendSchedule (w : List Nat) : Nat → List Nat
  | 0 => w
  | n + 1 =>
    let t := w.length
    let x := (smallSigma1 (w.getD (t - 2) 0) + w.getD (t - 7) 0 +
              smallSigma0 (w.getD (t - 15) 0) + w.getD (t - 16) 0) % w32
    extendSchedule (w ++ [x]) n

/-- One SHA-256 round on the state `[a,b,c,d,e,f,g,h]`. -/
def compressRound (kt wt : Nat) : List Nat → List Nat
  | [a, b, c, d, e, f, g, h] =>
    let t1 := (h + bigSigma1 e + shaCh e f g + kt + wt) % w32
    let t2 := (bigSigma0 a + shaMaj a b c) % w32
    [(t1 + t2) % w32, a, b, c, (d + t1) % w32, e, f, g]
  | st => st

/-- SHA-256 compression of one 16-word block into the chaining value. -/
def compressBlock (h : List Nat) (block : List Nat) : List Nat :=
  let w := extendSchedule block 48
  let v := (List.range 64).foldl
    (fun st t => compressRound (sha256K.getD t 0) (w.getD t 0) st) h
  (h.zip v).map (fun p => (p.1 + p.2) % w32)

/-- Iterate the compression function over 64-byte blocks (`fuel` bounds the
number of steps; it is instantiated with the byte count). -/
def sha256Loop : Nat → List Nat → List Nat → List Nat
  | _, h, [] => h
  | 0, h, _ => h
  | fuel + 1, h, bytes =>
    sha256Loop fuel (compressBlock h (toWordsBE (bytes.take 64))) (bytes.drop 64)

/-- SHA-256 digest (32 bytes) of a byte list, as in Go's `crypto/sha256`. -/
def sha256 (msg : List Nat) : List Nat :=
  let padded := sha256Pad msg
  (sha256Loop padded.length sha256H0 padded).flatMap wordBytes

/-- HMAC-SHA256 (Go `crypto/hmac` with `sha256.New`): block size 64. -/
def hmacSha256 (key msg : List Nat) : List Nat :=
  let k0 := if 64 < key.length then sha256 key else key
  let k := k0 ++ List.replicate (64 - k0.length) 0
  let ipad := k.map (fun b => b ^^^ 0x36)
  let opad := k.map (fun b => b ^^^ 0x5C)
  sha256 (opad ++ sha256 (ipad ++ msg))

/-! ### Signature validation (`webhook.go`, `validateSignature`) -/

/-- Go `strings.HasPrefix` plus slicing off the prefix (`signature[7:]`):
returns the remainder when `pre` is a prefix. -/
def stripLead : List Char → List Char → Option (List Char)
  | [], cs => some cs
  | _, [] => none
  | p :: ps, c :: cs => if p = c then stripLead ps cs else none

/-- Go `hmac.Equal` (`subtle.ConstantTimeCompare`): true iff the two byte
sequences are equal (the constant-time aspect is not observable in a pure
model). -/
def hmacEqual (a b : List Nat) : Bool := a == b

/-- `validateSignature` from `internal/handlers/webhook.go`: skip when no
secret is configured; require the `sha256=` prefix; hex-decode the provided
digest and the freshly hex-encoded expected digest; compare bytes. -/
def validateSignature (webhookSecret : String) (payload : List Nat)
    (signature : String) : Bool :=
  if webhookSecret = "" then true
  else
    match stripLead "sha256=".data signature.data with
    | none => false
    | some providedSignature =>
      let expectedSignature := hexEncodeChars (hmacSha256 (utf8Encode webhookSecret) payload)
      match hexDecode providedSignature, hexDecode expectedSignature with
      | some providedBytes, some expectedBytes => hmacEqual providedBytes expectedBytes
      | _, _ => false

/-! ### JSON values and the Go `encoding/json` scanner

`json.Unmarshal(body, &event)` is modelled in two phases with the same
observable behaviour: `parseJsonText` validates/parses the body as one JSON
text (Go's scanner), and `decodeGitHubEvent` decodes the resulting value into
the `GitHubEvent` struct (Go's decoder; a type error anywhere makes
`Unmarshal` return a non-nil error, modelled as `none`). -/

inductive Json where
  | null
  | bool (b : Bool)
  | num (lit : String)
  | str (s : String)
  | arr (elems : List Json)
  | obj (members : List (String × Json))

/-- JSON insignificant whitespace (Go scanner: space, tab, newline, return). -/
def isJsonWs (c : Char) : Bool := c = ' ' || c = '\t' || c = '\n' || c = '\r'

def skipWs (cs : List Char) : List Char := cs.dropWhile isJsonWs

/-- Four hex digits of a `\u` escape (Go `getu4`; either letter case). -/
def hex4 : List Char → Option (Nat × List Char)
  | a :: b :: c :: d :: rest =>
    match fromHexChar a, fromHexChar b, fromHexChar c, fromHexChar d with
    | some va, some vb, some vc, some vd =>
      some ((((va * 16 + vb) * 16 + vc) * 16 + vd), rest)
    | _, _, _, _ => none
  | _ => none

/-- Single-character string escapes accepted by Go's decoder. -/
def escChar : Char → Option Char
  | '"' => some '"'
  | '\\' => some '\\'
  | '/' => some '/'
  | 'b' => some (Char.ofNat 8)
  | 'f' => some (Char.ofNat 12)
  | 'n' => some '\n'
  | 'r' => some '\r'
  | 't' => some '\t'
  | _ => none

/-- Body of a JSON string after the opening quote: content and remainder.
Mirrors Go's string decoding: control characters below `0x20` are rejected,
`\u` escapes combine surrogate pairs and replace unpaired surrogates with
`U+FFFD`. -/
def parseStringBody : Nat → List Char → Option (List Char × List Char)
  | 0, _ => none
  | fuel + 1, cs =>
    match cs with
    | [] => none
    | '"' :: rest => some ([], rest)
    | '\\' :: 'u' :: rest =>
      match hex4 rest with
      | none => none
      | some (v, rest2) =>
        if 0xD800 ≤ v ∧ v ≤ 0xDBFF then
          match rest2 with
          | '\\' :: 'u' :: rest3 =>
            match hex4 rest3 with
            | some (w, rest4) =>
              if 0xDC00 ≤ w ∧ w ≤ 0xDFFF then
                (parseStringBody fuel rest4).map fun p =>
                  (Char.ofNat (0x10000 + (v - 0xD800) * 0x400 + (w - 0xDC00)) :: p.1, p.2)
              else
                (parseStringBody fuel rest2).map fun p => (Char.ofNat 0xFFFD :: p.1, p.2)
            | none =>
              (parseStringBody fuel rest2).map fun p => (Char.ofNat 0xFFFD :: p.1, p.2)
          | _ =>
            (parseStringBody fuel rest2).map fun p => (Char.ofNat 0xFFFD :: p.1, p.2)
        else if 0xDC00 ≤ v ∧ v ≤ 0xDFFF then
          (parseStringBody fuel rest2).map fun p => (Char.ofNat 0xFFFD :: p.1, p.2)
        else
          (parseStringBody fuel rest2).map fun p => (Char.ofNat v :: p.1, p.2)
    | '\\' :: c :: rest =>
      match escChar c with
      | some e => (parseStringBody fuel rest).map fun p => (e :: p.1, p.2)
      | none => none
    | c :: rest =>
      if c.toNat < 0x20 then none
      else (parseStringBody fuel rest).map fun p => (c :: p.1, p.2)

/-- Optional fraction part of a JSON number (`.` with at least one digit). -/
def parseFracPart : List Char → Option (List Char × List Char)
  | '.' :: r =>
    let ds := r.takeWhile Char.isDigit
    if ds.isEmpty then none
    else some ('.' :: ds, r.dropWhile Char.isDigit)
  | cs => some ([], cs)

/-- Optional exponent part of a JSON number. -/
def parseExpPart : List Char → Option (List Char × List Char)
  | [] => some ([], [])
  | c :: r =>
    if c = 'e' ∨ c = 'E' then
      let (sg, r2) : List Char × List Char :=
        match r with
        | '+' :: rr => (['+'], rr)
        | '-' :: rr => (['-'], rr)
        | _ => ([], r)
      let ds := r2.takeWhile Char.isDigit
      if ds.isEmpty then none
      else some (c :: (sg ++ ds), r2.dropWhile Char.isDigit)
    else some ([], c :: r)

/-- A JSON number literal per RFC 8259 / Go's scanner: optional minus, `0` or
a nonzero-led digit run, optional fraction, optional exponent. -/
def parseNumber (cs : List Char) : Option (List Char × List Char) :=
  let (sign, cs1) : List Char × List Char :=
    match cs with
    | '-' :: r => (['-'], r)
    | _ => ([], cs)
  match cs1 with
  | [] => none
  | c :: r =>
    if c = '0' then
      match parseFracPart r with
      | none => none
      | some (fp, r2) =>
        match parseExpPart r2 with
        | none => none
        | some (ep, r3) => some (sign ++ '0' :: (fp ++ ep), r3)
    else if c.isDigit then
      let ds := (c :: r).takeWhile Char.isDigit
      match parseFracPart ((c :: r).dropWhile Char.isDigit) with
      | none => none
      | some (fp, r2) =>
        match parseExpPart r2 with
        | none => none
        | some (ep, r3) => some (sign ++ (ds ++ fp ++ ep), r3)
    else none

mutual

/-- One JSON value (with leading whitespace), returning the remainder. The
fuel argument dominates the recursion depth; the top-level entry point
supplies enough for any input. -/
def parseValue : Nat → List Char → Option (Json × List Char)
  | 0, _ => none
  | fuel + 1, cs =>
    match skipWs cs with
    | 'n' :: 'u' :: 'l' :: 'l' :: r => some (.null, r)
    | 't' :: 'r' :: 'u' :: 'e' :: r => some (.bool true, r)
    | 'f' :: 'a' :: 'l' :: 's' :: 'e' :: r => some (.bool false, r)
    | '"' :: r =>
      match parseStringBody (r.length + 1) r with
      | some (content, rest) => some (.str (String.mk content), rest)
      | none => none
    | '{' :: r =>
      match skipWs r with
      | '}' :: r2 => some (.obj [], r2)
      | r2 =>
        match parseMembers fuel r2 with
        | some (ms, rest) => some (.obj ms, rest)
        | none => none
    | '[' :: r =>
      match skipWs r with
      | ']' :: r2 => some (.arr [], r2)
      | r2 =>
        match parseElements fuel r2 with
        | some (es, rest) => some (.arr es, rest)
        | none => none
    | cs2 =>
      match parseNumber cs2 with
      | some (lit, rest) => some (.num (String.mk lit), rest)
      | none => none

/-- Nonempty member list of a JSON object, up to and including `}`. -/
def parseMembers : Nat → List Char → Option (List (String × Json) × List Char)
  | 0, _ => none
  | fuel + 1, cs =>
    match cs with
    | '"' :: r =>
      match parseStringBody (r.length + 1) r with
      | none => none
      | some (key, r2) =>
        match skipWs r2 with
        | ':' :: r3 =>
          match parseValue fuel r3 with
          | none => none
          | some (v, r4) =>
            match skipWs r4 with
            | ',' :: r5 =>
              match parseMembers fuel (skipWs r5) with
              | some (ms, rest) => some ((String.mk key, v) :: ms, rest)
              | none => none
            | '}' :: r5 => some ([(String.mk key, v)], r5)
            | _ => none
        | _ => none
    | _ => none

/-- Nonempty element list of a JSON array, up to and including `]`. -/
def parseElements : Nat → List Char → Option (List Json × List Char)
  | 0, _ => none
  | fuel + 1, cs =>
    match parseValue fuel cs with
    | none => none
    | some (v, r) =>
      match skipWs r with
      | ',' :: r2 =>
        match parseElements fuel r2 with
        | some (es, rest) => some (v :: es, rest)
        | none => none
      | ']' :: r2 => some ([v], r2)
      | _ => none

end

/-- Go's `json.Unmarshal` top level: exactly one JSON value, with only
whitespace after it; anything else (including the empty body) is an error. -/
def parseJsonText (s : String) : Option Json :=
  match parseValue (2 * s.length + 2) s.data with
  | some (v, rest) => if (skipWs rest).isEmpty then some v else none
  | none => none

/-! ### Decoding into `GitHubEvent` (`internal/webhook/types.go`) -/

/-- The `GitHubEvent` struct: `Action string`, `Repository` and `Sender`
`map[string]interface\x7b\x7d`. A Go `nil` map is `none`; a decoded map keeps
its member list (lookup takes the last binding, matching overwrite-on-insert
semantics). -/
structure GitHubEvent where
  action : String := ""
  repository : Option (List (String × Json)) := none
  sender : Option (List (String × Json)) := none

/-- ASCII lowercasing of one character. -/
def asciiLower (c : Char) : Char :=
  if 'A' ≤ c ∧ c ≤ 'Z' then Char.ofNat (c.toNat + 32) else c

/-- Go `encoding/json` field matching for the lowercase ASCII tags `action`,
`repository`, `sender`: exact or case-insensitive (fold). -/
def keyMatch (k field : String) : Bool := k.data.map asciiLower == field.data

/-- Whether a JSON value is a string. -/
def Json.isStr : Json → Bool
  | .str _ => true
  | _ => false

/-- Whether a JSON value is `null`. -/
def Json.isNull : Json → Bool
  | .null => true
  | _ => false

/-- Whether a JSON value is an object. -/
def Json.isObj : Json → Bool
  | .obj _ => true
  | _ => false

/-- Decode one object member into the struct: strings for `action`, objects
for `repository`/`sender`; `null` stores the zero value; any other type for a
matched key is an `Unmarshal` type error (`none`); unmatched keys are
ignored. A repeated map key decodes into the existing map (Go reuses it). -/
def applyMember (e : GitHubEvent) (k : String) (v : Json) : Option GitHubEvent :=
  if keyMatch k "action" then
    match v with
    | .str s => some { e with action := s }
    | .null => some e
    | _ => none
  else if keyMatch k "repository" then
    match v with
    | .obj m => some { e with repository := some (e.repository.getD [] ++ m) }
    | .null => some { e with repository := none }
    | _ => none
  else if keyMatch k "sender" then
    match v with
    | .obj m => some { e with sender := some (e.sender.getD [] ++ m) }
    | .null => some { e with sender := none }
    | _ => none
  else some e

def applyMembers : GitHubEvent → List (String × Json) → Option GitHubEvent
  | e, [] => some e
  | e, (k, v) :: rest =>
    match applyMember e k v with
    | some e2 => applyMembers e2 rest
    | none => none

/-- Decode a JSON value into `GitHubEvent`: a top-level object fills the
struct member by member; top-level `null` leaves the zero value; any other
top-level value is an `Unmarshal` type error. -/
def decodeGitHubEvent : Json → Option GitHubEvent
  | .null => some {}
  | .obj ms => applyMembers {} ms
  | _ => none

/-- The whole of `json.Unmarshal(body, &event)` as used by the handler:
`none` exactly when `Unmarshal` returns a non-nil error. -/
def parseGitHubEvent (s : String) : Option GitHubEvent :=
  match parseJsonText s with
  | some j => decodeGitHubEvent j
  | none => none

/-- Go map lookup on the decoded member list: the last binding of the key
(insertion overwrites). -/
def mapGet (m : List (String × Json)) (k : String) : Option Json :=
  match m.reverse.find? (fun p => p.1 == k) with
  | some p => some p.2
  | none => none

/-- `repoName` extraction in `HandleWebhook`: `"unknown"` unless
`event.Repository` is non-nil and its `full_name` entry is a string. -/
def extractRepoName (e : GitHubEvent) : String :=
  match e.repository with
  | none => "unknown"
  | some m =>
    match mapGet m "full_name" with
    | some (.str name) => name
    | _ => "unknown"

/-- `senderLogin` extraction in `HandleWebhook`: `"unknown"` unless
`event.Sender` is non-nil and its `login` entry is a string. -/
def extractSenderLogin (e : GitHubEvent) : String :=
  match e.sender with
  | none => "unknown"
  | some m =>
    match mapGet m "login" with
    | some (.str login) => login
    | _ => "unknown"

/-! ### Event classification (`internal/webhook/types.go`) -/

/-- `SupportedEventTypes`: the allow-list map literal. -/
def SupportedEventTypes : List (String × Bool) :=
  [("push", true), ("issue_comment", true), ("pull_request", true)]

/-- `IsSupportedEvent`: Go map indexing with the zero value `false` for
missing keys. -/
def IsSupportedEvent (eventType : String) : Bool :=
  (SupportedEventTypes.lookup eventType).getD false

/-! ### Persistence parameters (`storeWebhookEvent`) -/

/-- `db.CreateWebhookEventParams`; `pgtype.Text` is `Option String`
(`none` = SQL NULL, the zero `pgtype.Text` with `Valid: false`). The payload
column receives the raw body. -/
structure CreateWebhookEventParams where
  deliveryID : String
  eventType : String
  repositoryName : Option String
  senderLogin : Option String
  action : Option String
  payload : String
deriving DecidableEq, Repr

/-- The parameter construction in `storeWebhookEvent`: `repoName` and
`senderLogin` are stored only when they are neither `"unknown"` nor empty;
`action` only when nonempty. (The context timeout and the gateway call are
external.) -/
def storeWebhookEventParams (eventType deliveryID repoName senderLogin action
    payload : String) : CreateWebhookEventParams :=
  { deliveryID := deliveryID
    eventType := eventType
    repositoryName := if repoName ≠ "unknown" ∧ repoName ≠ "" then some repoName else none
    senderLogin := if senderLogin ≠ "unknown" ∧ senderLogin ≠ "" then some senderLogin else none
    action := if action ≠ "" then some action else none
    payload := payload }

/-! ### The HTTP handler (`HandleWebhook`) -/

/-- The three provider headers are read with `r.Header.Get`, which yields
`""` for an absent header; they are modelled as plain string fields. -/
structure Request where
  method : String
  body : String
  eventType : String
  deliveryID : String
  signature : String

/-- `WebhookHandler`: the configured secret and whether a database
connection was injected (`dbConn != nil`). -/
structure WebhookHandler where
  webhookSecret : String
  hasDbConn : Bool

/-- Observable outcome of one request: HTTP status and body, whether JSON
parsing was reached, and the persistence-gateway calls made (with the
result the gateway returned, `some msg` being a failure). -/
structure HandlerOutput where
  status : Nat
  respBody : String
  parseAttempted : Bool
  storeCalls : List CreateWebhookEventParams
  storeResults : List (Option String)
deriving Repr

/-- The success acknowledgment: Go's `json.Encoder` sorts map keys and
appends a newline. -/
def successBody : String :=
  "\x7b\"message\":\"Webhook received and processed\",\"status\":\"success\"\x7d\n"

/-- `HandleWebhook` from `internal/handlers/webhook.go`, with the
persistence gateway (`Queries().CreateWebhookEvent`) passed in as the
function `store` (`some msg` models a non-nil error). The body read is
modelled as already complete (its I/O failure branch is transport-level).
Logging is not modelled. -/
def HandleWebhook (wh : WebhookHandler)
    (store : CreateWebhookEventParams → Option String) (r : Request) :
    HandlerOutput :=
  if r.method ≠ "POST" then
    { status := 405, respBody := "Only POST method is allowed\n",
      parseAttempted := false, storeCalls := [], storeResults := [] }
  else if !(validateSignature wh.webhookSecret (utf8Encode r.body) r.signature) then
    { status := 401, respBody := "Invalid signature\n",
      parseAttempted := false, storeCalls := [], storeResults := [] }
  else
    match parseGitHubEvent r.body with
    | none =>
      { status := 400, respBody := "Invalid JSON payload\n",
        parseAttempted := true, storeCalls := [], storeResults := [] }
    | some event =>
      let repoName := extractRepoName event
      let senderLogin := extractSenderLogin event
      if wh.hasDbConn && IsSupportedEvent r.eventType then
        let params := storeWebhookEventParams r.eventType r.deliveryID repoName
          senderLogin event.action r.body
        { status := 200, respBody := successBody, parseAttempted := true,
          storeCalls := [params], storeResults := [store params] }
      else
        { status := 200, respBody := successBody, parseAttempted := true,
          storeCalls := [], storeResults := [] }

/-! ### Hex and prefix lemmas -/

theorem fromHex_hexDigit : ∀ n < 16, fromHexChar (hexDigitChar n) = some n := by
  decide

theorem hexDecode_hexEncode (bs : List Nat) (h : ∀ b ∈ bs, b < 256) :
    hexDecode (hexEncodeChars bs) = some bs := by
  induction bs with
  | nil => rfl
  | cons b rest ih =>
    have hb : b < 256 := h b (by simp)
    have h1 : fromHexChar (hexDigitChar (b / 16)) = some (b / 16) :=
      fromHex_hexDigit _ (by omega)
    have h2 : fromHexChar (hexDigitChar (b % 16)) = some (b % 16) :=
      fromHex_hexDigit _ (by omega)
    have h3 : hexDecode (hexEncodeChars rest) = some rest :=
      ih (fun x hx => h x (by simp [hx]))
    have hflat : hexEncodeChars (b :: rest) =
        hexDigitChar (b / 16) :: hexDigitChar (b % 16) :: hexEncodeChars rest := by
      simp [hexEncodeChars]
    rw [hflat]
    unfold hexDecode
    rw [h1, h2, h3]
    have : b / 16 * 16 + b % 16 = b := by omega
    simp [this]

theorem wordBytes_lt (w : Nat) : ∀ b ∈ wordBytes w, b < 256 := by
  simp [wordBytes]
  omega

theorem sha256_bytes_lt (msg : List Nat) : ∀ b ∈ sha256 msg, b < 256 := by
  intro b hb
  simp only [sha256, List.mem_flatMap] at hb
  obtain ⟨w, _, hw⟩ := hb
  exact wordBytes_lt w b hw

theorem hmacSha256_bytes_lt (key msg : List Nat) :
    ∀ b ∈ hmacSha256 key msg, b < 256 := by
  intro b hb
  exact sha256_bytes_lt _ b hb

theorem stripLead_eq_some (p : List Char) :
    ∀ s r, stripLead p s = some r ↔ s = p ++ r := by
  induction p with
  | nil => intro s r; simp [stripLead]
  | cons c cs ih =>
    intro s r
    cases s with
    | nil => simp [stripLead]
    | cons d ds =>
      by_cases hc : c = d
      · subst hc
        simp [stripLead, ih]
      · simp [stripLead, hc, Ne.symm hc]

theorem stripLead_append (p r : List Char) : stripLead p (p ++ r) = some r :=
  (stripLead_eq_some p (p ++ r) r).mpr rfl

/-! ### Claim theorems on the signature verifier -/

/-- C2: round-trip — for every non-empty secret `S` and payload `P`,
`validateSignature` accepts the header `"sha256=" ++ hexEncode (HMAC-SHA256
(key = utf8 S, message = utf8 P))`. -/
theorem C2_signature_roundtrip (S P : String) (h : S ≠ "") :
    validateSignature S (utf8Encode P)
      ("sha256=" ++ String.mk (hexEncodeChars (hmacSha256 (utf8Encode S) (utf8Encode P))))
      = true := by
  unfold validateSignature
  rw [if_neg h]
  have hdata : ("sha256=" ++ String.mk (hexEncodeChars
      (hmacSha256 (utf8Encode S) (utf8Encode P)))).data =
      "sha256=".data ++ hexEncodeChars (hmacSha256 (utf8Encode S) (utf8Encode P)) := by
    rfl
  rw [hdata, stripLead_append]
  have hdec : hexDecode (hexEncodeChars (hmacSha256 (utf8Encode S) (utf8Encode P))) =
      some (hmacSha256 (utf8Encode S) (utf8Encode P)) :=
    hexDecode_hexEncode _ (hmacSha256_bytes_lt _ _)
  simp [hdec, hmacEqual]

/-- C2 witness at a concrete secret and payload. -/
theorem C2_signature_roundtrip_witness :
    ("key" : String) ≠ "" ∧
    validateSignature "key" (utf8Encode "payload")
      ("sha256=" ++ String.mk (hexEncodeChars
        (hmacSha256 (utf8Encode "key") (utf8Encode "payload")))) = true :=
  ⟨by decide, C2_signature_roundtrip "key" "payload" (by decide)⟩

/-- C6: an empty/unset secret disables signature verification — `verify`
returns true for every payload and every signature header. -/
theorem C6_empty_secret_skips (payload : List Nat) (signature : String) :
    validateSignature "" payload signature = true := by
  rfl

set_option maxRecDepth 1000000 in
set_option maxHeartbeats 4000000 in
/-- C5 counterexample: with secret `"key"` and payload `"x"`, the header
carrying the UPPERCASE hex digest of the correct HMAC verifies as true, and
that header differs from the lowercase-hex header — refuting the claim that
any non-lowercase shape returns false. -/
theorem C5_counterexample :
    validateSignature "key" (utf8Encode "x")
      "sha256=4FC3B7EAF34D7E594A6F51D9517BA543ABF41067B27587FFD82BA3584E4D3CDD"
      = true ∧
    ("sha256=4FC3B7EAF34D7E594A6F51D9517BA543ABF41067B27587FFD82BA3584E4D3CDD" : String)
      ≠ "sha256=4fc3b7eaf34d7e594a6f51d9517ba543abf41067b27587ffd82ba3584e4d3cdd" := by
  constructor
  · decide
  · decide

/-- C5 (amended): with a non-empty secret, `verify` returns true exactly for
headers of the shape `sha256=` followed by a hexadecimal digest (hex digits
of either case) that decodes to the correct HMAC-SHA256 digest; any other
shape returns false. -/
theorem C5_signature_shape (S P : String) (h : S ≠ "") (sig : String) :
    validateSignature S (utf8Encode P) sig = true ↔
      ∃ rest, sig.data = "sha256=".data ++ rest ∧
        hexDecode rest = some (hmacSha256 (utf8Encode S) (utf8Encode P)) := by
  unfold validateSignature
  rw [if_neg h]
  have hdec : hexDecode (hexEncodeChars (hmacSha256 (utf8Encode S) (utf8Encode P))) =
      some (hmacSha256 (utf8Encode S) (utf8Encode P)) :=
    hexDecode_hexEncode _ (hmacSha256_bytes_lt _ _)
  cases hd : stripLead "sha256=".data sig.data with
  | none =>
    simp only [Bool.false_eq_true, false_iff]
    rintro ⟨rest, hrest, _⟩
    rw [(stripLead_eq_some _ _ _).mpr hrest] at hd
    exact Option.noConfusion hd
  | some provided =>
    have hsplit : sig.data = "sha256=".data ++ provided :=
      (stripLead_eq_some _ _ _).mp hd
    cases hp : hexDecode provided with
    | none =>
      simp only [hp, hdec, Bool.false_eq_true, false_iff]
      rintro ⟨rest, hrest, hr⟩
      have : provided = rest := by
        have := hsplit.symm.trans hrest
        exact List.append_cancel_left this
      rw [this, hr] at hp
      exact Option.noConfusion hp
    | some bytes =>
      simp only [hp, hdec, hmacEqual, beq_iff_eq]
      constructor
      · intro hb
        exact ⟨provided, hsplit, by rw [hp, hb]⟩
      · rintro ⟨rest, hrest, hr⟩
        have : provided = rest := by
          have := hsplit.symm.trans hrest
          exact List.append_cancel_left this
        rw [this, hr] at hp
        exact ((Option.some.injEq _ _).mp hp).symm

/-- C5 amended-claim witness at a concrete secret, payload and header. -/
theorem C5_signature_shape_witness :
    ("key" : String) ≠ "" ∧
    (validateSignature "key" (utf8Encode "x") "nope" = true ↔
      ∃ rest, ("nope" : String).data = "sha256=".data ++ rest ∧
        hexDecode rest = some (hmacSha256 (utf8Encode "key") (utf8Encode "x"))) :=
  ⟨by decide, C5_signature_shape "key" "x" (by decide) "nope"⟩

/-! ### Claim theorems on the handler pipeline -/

/-- C1: with a configured (non-empty) secret, a POST request whose signature
fails verification is answered 401, JSON parsing is never reached, and no
persistence-store call is made. -/
theorem C1_failed_signature_terminal (wh : WebhookHandler)
    (store : CreateWebhookEventParams → Option String) (r : Request)
    (_hs : wh.webhookSecret ≠ "") (hm : r.method = "POST")
    (hv : validateSignature wh.webhookSecret (utf8Encode r.body) r.signature = false) :
    (HandleWebhook wh store r).status = 401 ∧
    (HandleWebhook wh store r).parseAttempted = false ∧
    (HandleWebhook wh store r).storeCalls = [] := by
  unfold HandleWebhook
  rw [hm, hv]
  simp

/-- C1 witness: a concrete POST with secret configured and no signature
header. -/
theorem C1_failed_signature_terminal_witness :
    (("secret" : String) ≠ "") ∧
    validateSignature "secret" (utf8Encode "\x7b\x7d") "" = false ∧
    ((HandleWebhook ⟨"secret", true⟩ (fun _ => none)
        ⟨"POST", "\x7b\x7d", "push", "d1", ""⟩).status = 401 ∧
      (HandleWebhook ⟨"secret", true⟩ (fun _ => none)
        ⟨"POST", "\x7b\x7d", "push", "d1", ""⟩).parseAttempted = false ∧
      (HandleWebhook ⟨"secret", true⟩ (fun _ => none)
        ⟨"POST", "\x7b\x7d", "push", "d1", ""⟩).storeCalls = []) :=
  ⟨by decide, rfl,
    C1_failed_signature_terminal ⟨"secret", true⟩ (fun _ => none)
      ⟨"POST", "\x7b\x7d", "push", "d1", ""⟩ (by decide) rfl rfl⟩

/-- Shared shape of the success path: once the method, signature and parse
checks pass, the response is 200 with the fixed success body, whatever the
configuration, classifier outcome or store result. -/
theorem handleWebhook_success_parts (wh : WebhookHandler)
    (store : CreateWebhookEventParams → Option String) (r : Request)
    (e : GitHubEvent) (hm : r.method = "POST")
    (hv : validateSignature wh.webhookSecret (utf8Encode r.body) r.signature = true)
    (hp : parseGitHubEvent r.body = some e) :
    (HandleWebhook wh store r).status = 200 ∧
    (HandleWebhook wh store r).respBody = successBody := by
  unfold HandleWebhook
  rw [hm, hv, hp]
  cases hc : wh.hasDbConn && IsSupportedEvent r.eventType <;> exact ⟨rfl, rfl⟩

/-- C3: on the success path with persistence configured and a persistable
event type, a failing store call (`some msg`, e.g. a delivery-id uniqueness
violation) is recorded but the response is still 200 with the success
body. -/
theorem C3_store_failure_still_success (wh : WebhookHandler)
    (store : CreateWebhookEventParams → Option String) (r : Request)
    (e : GitHubEvent) (msg : String) (hm : r.method = "POST")
    (hv : validateSignature wh.webhookSecret (utf8Encode r.body) r.signature = true)
    (hp : parseGitHubEvent r.body = some e) (hdb : wh.hasDbConn = true)
    (he : IsSupportedEvent r.eventType = true)
    (hfail : store (storeWebhookEventParams r.eventType r.deliveryID
        (extractRepoName e) (extractSenderLogin e) e.action r.body) = some msg) :
    (HandleWebhook wh store r).status = 200 ∧
    (HandleWebhook wh store r).respBody = successBody ∧
    (HandleWebhook wh store r).storeResults = [some msg] := by
  unfold HandleWebhook
  rw [hm, hv, hp]
  simp [hdb, he, hfail]

/-- C3 witness: duplicate delivery rejected by the gateway, response still
200. -/
theorem C3_store_failure_still_success_witness :
    (("POST" : String) = "POST") ∧
    validateSignature "" (utf8Encode "\x7b\x7d") "" = true ∧
    parseGitHubEvent "\x7b\x7d" = some ⟨"", none, none⟩ ∧
    IsSupportedEvent "push" = true ∧
    ((HandleWebhook ⟨"", true⟩ (fun _ => some "unique violation")
        ⟨"POST", "\x7b\x7d", "push", "d1", ""⟩).status = 200 ∧
      (HandleWebhook ⟨"", true⟩ (fun _ => some "unique violation")
        ⟨"POST", "\x7b\x7d", "push", "d1", ""⟩).respBody = successBody ∧
      (HandleWebhook ⟨"", true⟩ (fun _ => some "unique violation")
        ⟨"POST", "\x7b\x7d", "push", "d1", ""⟩).storeResults = [some "unique violation"]) :=
  ⟨rfl, rfl, rfl, rfl,
    C3_store_failure_still_success ⟨"", true⟩ (fun _ => some "unique violation")
      ⟨"POST", "\x7b\x7d", "push", "d1", ""⟩ ⟨"", none, none⟩ "unique violation"
      rfl rfl rfl rfl rfl rfl⟩

/-- C4 counterexample: the body `\x7b"action":5\x7d` is valid top-level JSON,
yet `Unmarshal` fails on the non-string `action` (so the handler answers 400)
— refuting the claim that a type-mismatched looked-at field is treated as
absent rather than a parse error. -/
theorem C4_counterexample :
    (parseJsonText "\x7b\"action\":5\x7d").isSome = true ∧
    parseGitHubEvent "\x7b\"action\":5\x7d" = none ∧
    (HandleWebhook ⟨"", false⟩ (fun _ => none)
      ⟨"POST", "\x7b\"action\":5\x7d", "push", "d1", ""⟩).status = 400 :=
  ⟨rfl, rfl, rfl⟩

/-- C4 (amended): an inner looked-at field of any non-string type
(`full_name` or `login` present as a number, bool, null, array or object) is
treated as absent and never an error; but a top-level looked-at member of
mismatched non-null type (`action` not a string, `repository`/`sender` not
objects — each including every such type) makes the parse fail, and a body
whose parse fails is answered 400 with no store call. -/
theorem C4_type_mismatch (v : Json) (wh : WebhookHandler)
    (store : CreateWebhookEventParams → Option String) (r : Request) :
    (v.isStr = false →
      decodeGitHubEvent (.obj [("repository", .obj [("full_name", v)]),
          ("sender", .obj [("login", v)])]) =
        some ⟨"", some [("full_name", v)], some [("login", v)]⟩ ∧
      extractRepoName ⟨"", some [("full_name", v)], none⟩ = "unknown" ∧
      extractSenderLogin ⟨"", none, some [("login", v)]⟩ = "unknown") ∧
    (v.isStr = false → v.isNull = false →
      decodeGitHubEvent (.obj [("action", v)]) = none) ∧
    (v.isObj = false → v.isNull = false →
      decodeGitHubEvent (.obj [("repository", v)]) = none ∧
      decodeGitHubEvent (.obj [("sender", v)]) = none) ∧
    (r.method = "POST" →
      validateSignature wh.webhookSecret (utf8Encode r.body) r.signature = true →
      parseGitHubEvent r.body = none →
      (HandleWebhook wh store r).status = 400 ∧
      (HandleWebhook wh store r).respBody = "Invalid JSON payload\n" ∧
      (HandleWebhook wh store r).storeCalls = []) := by
  refine ⟨?_, ?_, ?_, ?_⟩
  · intro hs
    cases v with
    | str s => simp [Json.isStr] at hs
    | null => exact ⟨rfl, rfl, rfl⟩
    | bool b => exact ⟨rfl, rfl, rfl⟩
    | num l => exact ⟨rfl, rfl, rfl⟩
    | arr es => exact ⟨rfl, rfl, rfl⟩
    | obj m => exact ⟨rfl, rfl, rfl⟩
  · intro hs hn
    cases v with
    | str s => simp [Json.isStr] at hs
    | null => simp [Json.isNull] at hn
    | bool b => rfl
    | num l => rfl
    | arr es => rfl
    | obj m => rfl
  · intro ho hn
    cases v with
    | obj m => simp [Json.isObj] at ho
    | null => simp [Json.isNull] at hn
    | str s => exact ⟨rfl, rfl⟩
    | bool b => exact ⟨rfl, rfl⟩
    | num l => exact ⟨rfl, rfl⟩
    | arr es => exact ⟨rfl, rfl⟩
  · intro hm hv hp
    unfold HandleWebhook
    rw [hm, hv, hp]
    exact ⟨rfl, rfl, rfl⟩

/-- C4 amended-claim witness: an object for the inner fields and for
`action`, a string for `repository`/`sender`, and the parse-failing body
`\x7b"action":5\x7d` through the handler. -/
theorem C4_type_mismatch_witness :
    (Json.obj []).isStr = false ∧ (Json.obj []).isNull = false ∧
    (Json.str "x").isObj = false ∧ (Json.str "x").isNull = false ∧
    (("POST" : String) = "POST") ∧
    validateSignature "" (utf8Encode "\x7b\"action\":5\x7d") "" = true ∧
    parseGitHubEvent "\x7b\"action\":5\x7d" = none ∧
    (decodeGitHubEvent (.obj [("repository", .obj [("full_name", .obj [])]),
        ("sender", .obj [("login", .obj [])])]) =
      some ⟨"", some [("full_name", .obj [])], some [("login", .obj [])]⟩ ∧
     extractRepoName ⟨"", some [("full_name", .obj [])], none⟩ = "unknown" ∧
     extractSenderLogin ⟨"", none, some [("login", .obj [])]⟩ = "unknown") ∧
    decodeGitHubEvent (.obj [("action", .obj [])]) = none ∧
    (decodeGitHubEvent (.obj [("repository", .str "x")]) = none ∧
     decodeGitHubEvent (.obj [("sender", .str "x")]) = none) ∧
    ((HandleWebhook ⟨"", false⟩ (fun _ => none)
        ⟨"POST", "\x7b\"action\":5\x7d", "push", "d1", ""⟩).status = 400 ∧
     (HandleWebhook ⟨"", false⟩ (fun _ => none)
        ⟨"POST", "\x7b\"action\":5\x7d", "push", "d1", ""⟩).respBody =
       "Invalid JSON payload\n" ∧
     (HandleWebhook ⟨"", false⟩ (fun _ => none)
        ⟨"POST", "\x7b\"action\":5\x7d", "push", "d1", ""⟩).storeCalls = []) :=
  ⟨rfl, rfl, rfl, rfl, rfl, rfl, rfl,
    (C4_type_mismatch (.obj []) ⟨"", false⟩ (fun _ => none)
      ⟨"POST", "\x7b\"action\":5\x7d", "push", "d1", ""⟩).1 rfl,
    (C4_type_mismatch (.obj []) ⟨"", false⟩ (fun _ => none)
      ⟨"POST", "\x7b\"action\":5\x7d", "push", "d1", ""⟩).2.1 rfl rfl,
    (C4_type_mismatch (.str "x") ⟨"", false⟩ (fun _ => none)
      ⟨"POST", "\x7b\"action\":5\x7d", "push", "d1", ""⟩).2.2.1 rfl rfl,
    (C4_type_mismatch (.obj []) ⟨"", false⟩ (fun _ => none)
      ⟨"POST", "\x7b\"action\":5\x7d", "push", "d1", ""⟩).2.2.2 rfl rfl rfl⟩

/-- C7 counterexample: `[]` is valid top-level JSON but `Unmarshal` into the
struct fails — refuting "a parse error occurs exactly when the top-level body
is not valid JSON". -/
theorem C7_counterexample :
    (parseJsonText "[]").isSome = true ∧ parseGitHubEvent "[]" = none :=
  ⟨rfl, rfl⟩

/-- C7 (amended): parse of the empty body fails; parse of `\x7b\x7d` succeeds
with all three extracted fields absent; and every body that is not valid
top-level JSON is a parse error (valid JSON can also fail, when its top level
is not an object or a looked-at member has the wrong type). -/
theorem C7_parse_edges (s : String) (h : parseJsonText s = none) :
    parseGitHubEvent "" = none ∧
    parseGitHubEvent "\x7b\x7d" = some ⟨"", none, none⟩ ∧
    parseGitHubEvent s = none := by
  refine ⟨rfl, rfl, ?_⟩
  unfold parseGitHubEvent
  rw [h]

/-- C7 amended-claim witness at a concrete invalid body. -/
theorem C7_parse_edges_witness :
    parseJsonText "x" = none ∧
    (parseGitHubEvent "" = none ∧
      parseGitHubEvent "\x7b\x7d" = some ⟨"", none, none⟩ ∧
      parseGitHubEvent "x" = none) :=
  ⟨rfl, C7_parse_edges "x" rfl⟩

/-- C8: `IsSupportedEvent` is true exactly on `push`, `issue_comment` and
`pull_request`, and false on every other string. -/
theorem C8_supported_events (s : String) :
    IsSupportedEvent s =
      (s == "push" || s == "issue_comment" || s == "pull_request") := by
  by_cases h1 : s = "push"
  · subst h1; rfl
  · by_cases h2 : s = "issue_comment"
    · subst h2; rfl
    · by_cases h3 : s = "pull_request"
      · subst h3; rfl
      · have b1 : (s == "push") = false := beq_eq_false_iff_ne.mpr h1
        have b2 : (s == "issue_comment") = false := beq_eq_false_iff_ne.mpr h2
        have b3 : (s == "pull_request") = false := beq_eq_false_iff_ne.mpr h3
        simp [IsSupportedEvent, SupportedEventTypes, List.lookup, b1, b2, b3]

/-- C9: a repository name or sender login whose extracted value is exactly
`"unknown"` or `""` is persisted as NULL, and the resulting store parameters
are identical to those of a payload with the fields missing entirely (whose
extraction yields the `"unknown"` defaults). -/
theorem C9_unknown_stored_as_null
    (eventType deliveryID repoName senderLogin action payload : String)
    (hr : repoName = "unknown" ∨ repoName = "")
    (hs : senderLogin = "unknown" ∨ senderLogin = "") :
    (storeWebhookEventParams eventType deliveryID repoName senderLogin action
      payload).repositoryName = none ∧
    (storeWebhookEventParams eventType deliveryID repoName senderLogin action
      payload).senderLogin = none ∧
    storeWebhookEventParams eventType deliveryID repoName senderLogin action
      payload =
    storeWebhookEventParams eventType deliveryID
      (extractRepoName ⟨"", none, none⟩) (extractSenderLogin ⟨"", none, none⟩)
      action payload := by
  rcases hr with h | h <;> rcases hs with h' | h' <;> subst h <;> subst h' <;>
    exact ⟨rfl, rfl, rfl⟩

/-- C9 witness: the extracted value `"unknown"` (e.g. from a payload whose
`full_name` is literally `"unknown"`) and an empty login are stored as
NULL. -/
theorem C9_unknown_stored_as_null_witness :
    (("unknown" : String) = "unknown" ∨ ("unknown" : String) = "") ∧
    (("" : String) = "unknown" ∨ ("" : String) = "") ∧
    extractRepoName ⟨"", some [("full_name", .str "unknown")], none⟩ = "unknown" ∧
    ((storeWebhookEventParams "push" "d1" "unknown" "" "opened"
        "\x7b\x7d").repositoryName = none ∧
      (storeWebhookEventParams "push" "d1" "unknown" "" "opened"
        "\x7b\x7d").senderLogin = none ∧
      storeWebhookEventParams "push" "d1" "unknown" "" "opened" "\x7b\x7d" =
        storeWebhookEventParams "push" "d1" (extractRepoName ⟨"", none, none⟩)
          (extractSenderLogin ⟨"", none, none⟩) "opened" "\x7b\x7d") :=
  ⟨Or.inl rfl, Or.inr rfl, rfl,
    C9_unknown_stored_as_null "push" "d1" "unknown" "" "opened" "\x7b\x7d"
      (Or.inl rfl) (Or.inr rfl)⟩

/-- C10: any two requests that pass the signature and parse steps receive the
same response — status 200 and the fixed success body — independently of
event type, configuration, classification or store outcome. -/
theorem C10_indistinguishable_success (wh1 wh2 : WebhookHandler)
    (store1 store2 : CreateWebhookEventParams → Option String)
    (r1 r2 : Request) (e1 e2 : GitHubEvent)
    (hm1 : r1.method = "POST") (hm2 : r2.method = "POST")
    (hv1 : validateSignature wh1.webhookSecret (utf8Encode r1.body) r1.signature = true)
    (hv2 : validateSignature wh2.webhookSecret (utf8Encode r2.body) r2.signature = true)
    (hp1 : parseGitHubEvent r1.body = some e1)
    (hp2 : parseGitHubEvent r2.body = some e2) :
    (HandleWebhook wh1 store1 r1).status = 200 ∧
    (HandleWebhook wh1 store1 r1).respBody = successBody ∧
    (HandleWebhook wh1 store1 r1).status = (HandleWebhook wh2 store2 r2).status ∧
    (HandleWebhook wh1 store1 r1).respBody = (HandleWebhook wh2 store2 r2).respBody := by
  obtain ⟨a1, b1⟩ := handleWebhook_success_parts wh1 store1 r1 e1 hm1 hv1 hp1
  obtain ⟨a2, b2⟩ := handleWebhook_success_parts wh2 store2 r2 e2 hm2 hv2 hp2
  exact ⟨a1, b1, a1.trans a2.symm, b1.trans b2.symm⟩

/-- C10 witness: a stored `push` event with a failing gateway versus an
unclassified `ping` event without persistence. -/
theorem C10_indistinguishable_success_witness :
    (("POST" : String) = "POST") ∧
    validateSignature "" (utf8Encode "\x7b\x7d") "" = true ∧
    parseGitHubEvent "\x7b\x7d" = some ⟨"", none, none⟩ ∧
    ((HandleWebhook ⟨"", true⟩ (fun _ => some "down")
        ⟨"POST", "\x7b\x7d", "push", "d1", ""⟩).status = 200 ∧
      (HandleWebhook ⟨"", true⟩ (fun _ => some "down")
        ⟨"POST", "\x7b\x7d", "push", "d1", ""⟩).respBody = successBody ∧
      (HandleWebhook ⟨"", true⟩ (fun _ => some "down")
          ⟨"POST", "\x7b\x7d", "push", "d1", ""⟩).status =
        (HandleWebhook ⟨"", false⟩ (fun _ => none)
          ⟨"POST", "\x7b\x7d", "ping", "d2", ""⟩).status ∧
      (HandleWebhook ⟨"", true⟩ (fun _ => some "down")
          ⟨"POST", "\x7b\x7d", "push", "d1", ""⟩).respBody =
        (HandleWebhook ⟨"", false⟩ (fun _ => none)
          ⟨"POST", "\x7b\x7d", "ping", "d2", ""⟩).respBody) :=
  ⟨rfl, rfl, rfl,
    C10_indistinguishable_success ⟨"", true⟩ ⟨"", false⟩
      (fun _ => some "down") (fun _ => none)
      ⟨"POST", "\x7b\x7d", "push", "d1", ""⟩ ⟨"POST", "\x7b\x7d", "ping", "d2", ""⟩
      ⟨"", none, none⟩ ⟨"", none, none⟩ rfl rfl rfl rfl rfl rfl⟩

end Choochoo
